import Mathlib

/-!
Verification development for the SmartSort-AI core: the facility proximity
search and classification ledger in `backend/database.py`, the haversine
distance calculator, and the inference wrapper in
`backend/ai_model/classifier.py`.

Modelling conventions:
* Python floats are modelled as `ℚ` in the storage layer (so that every
  operation stays executable and decidable) and as `ℝ` for the
  transcendental haversine computation.
* SQLite rows are modelled as Lean structures; a table is a `List` of rows
  in rowid (insertion) order, which is the order an unindexed full scan
  returns.  `DATETIME` values are modelled as `ℤ` seconds (the stored
  second-granularity UTC strings compare lexicographically exactly like
  their integer epoch values).
* `ORDER BY` / Python `list.sort` are modelled with the stable
  `List.insertionSort`; Python `sort` is documented stable, and for the SQL
  `ORDER BY timestamp DESC` the model resolves the tie order that SQLite
  leaves unspecified stably, i.e. equal keys stay in rowid order.
* Python `round(x, n)` is modelled as `round (x * 10^n) / 10^n` with
  mathlib rounding; every concrete value used in a proof is far from a
  midpoint, where all rounding modes agree.
-/

/-- One row of the `facilities` table (see `CREATE TABLE facilities` and
`Database.add_facility` in `backend/database.py`). -/
structure Facility where
  id : ℕ
  name : String
  latitude : ℚ
  longitude : ℚ
  address : String
  accepts_pet : Bool
  accepts_hdpe : Bool
  accepts_other : Bool
  phone : Option String
  hours : Option String
  website : Option String
deriving DecidableEq, Repr

/-- One row of the `classification_history` table. -/
structure LedgerEntry where
  id : ℕ
  plastic_type : String
  confidence : ℚ
  image_name : Option String
  timestamp : ℤ
deriving DecidableEq, Repr

/-- The persistent state behind a `Database` connection: the two tables in
rowid order together with the `AUTOINCREMENT` counters. -/
structure DBState where
  history : List LedgerEntry
  nextHistoryId : ℕ
  facilities : List Facility
  nextFacilityId : ℕ
deriving DecidableEq, Repr

/-- Python `round(q, 2)`: round to two decimal places (spelled out as a
floor so that concrete values evaluate; equals mathlib `round (q * 100) / 100`). -/
def roundTo2 (q : ℚ) : ℚ := (⌊q * 100 + 1/2⌋ : ℤ) / 100

/-- Python `round(q, 4)`: round to four decimal places. -/
def roundTo4 (q : ℚ) : ℚ := (⌊q * 10000 + 1/2⌋ : ℤ) / 10000

/-- Python `str.upper()` (ASCII, which is all the repository compares). -/
def pyUpper (s : String) : String := ⟨s.data.map Char.toUpper⟩

/-- The acceptance filter the SQL `WHERE` clause of
`Database.get_nearby_facilities` applies to each facility row.  A falsy
(`None` or empty) `plastic_type` adds no condition; otherwise the argument
is upper-cased and only the three known categories add a condition, any
other string leaves the query unfiltered. -/
def plasticTypeFilter (plastic_type : Option String) (f : Facility) : Bool :=
  match plastic_type with
  | none => true
  | some s =>
    if s = "" then true
    else
      let u := pyUpper s
      if u = "PET" then f.accepts_pet
      else if u = "HDPE" then f.accepts_hdpe
      else if u = "OTHER" then f.accepts_other
      else true

/-- The derived `accepts_types` list built inside
`Database.get_nearby_facilities`: the accepted category names in canonical
order PET, HDPE, OTHER. -/
def acceptsTypes (f : Facility) : List String :=
  (if f.accepts_pet then ["PET"] else []) ++
  (if f.accepts_hdpe then ["HDPE"] else []) ++
  (if f.accepts_other then ["OTHER"] else [])

/-- A facility dict as returned by `Database.get_nearby_facilities`: the
original row plus the `distance_km` and `accepts_types` annotations. -/
structure NearbyFacility where
  facility : Facility
  distance_km : ℚ
  accepts_types : List String
deriving DecidableEq, Repr

/-- The annotated dict built for a facility that passed the radius test:
`distance_km` is the computed distance rounded to two decimals. -/
def annotateFacility (d : ℚ) (f : Facility) : NearbyFacility :=
  ⟨f, roundTo2 d, acceptsTypes f⟩

/-- Sort key relation of the final `nearby.sort(key=lambda x: x['distance_km'])`:
compare the (rounded) `distance_km` annotations. -/
def nearbyLE (a b : NearbyFacility) : Prop := a.distance_km ≤ b.distance_km

instance : DecidableRel nearbyLE :=
  fun a b => inferInstanceAs (Decidable (a.distance_km ≤ b.distance_km))

instance : IsTotal NearbyFacility nearbyLE := ⟨fun a b => le_total a.distance_km b.distance_km⟩

instance : IsTrans NearbyFacility nearbyLE := ⟨fun _ _ _ h1 h2 => le_trans h1 h2⟩

/-- The `nearby` list of `Database.get_nearby_facilities` before the final
sort: facilities that pass the SQL acceptance filter, in rowid order, whose
computed (unrounded) distance is at most `radius_km`, each annotated via
`annotateFacility`.  The distance computation (`self._calculate_distance`)
is passed in as the function `dist` taking the four coordinates. -/
def nearbyUnsorted (dist : ℚ → ℚ → ℚ → ℚ → ℚ) (latitude longitude : ℚ)
    (plastic_type : Option String) (radius_km : ℚ) (facilities : List Facility) :
    List NearbyFacility :=
  (facilities.filter (plasticTypeFilter plastic_type)).filterMap (fun f =>
    let d := dist latitude longitude f.latitude f.longitude
    if d ≤ radius_km then some (annotateFacility d f) else none)

/-- `Database.get_nearby_facilities`: filter by acceptance and radius,
annotate, then sort ascending by the rounded `distance_km` (Python
`list.sort` is stable). -/
def get_nearby_facilities (dist : ℚ → ℚ → ℚ → ℚ → ℚ) (latitude longitude : ℚ)
    (plastic_type : Option String) (radius_km : ℚ) (facilities : List Facility) :
    List NearbyFacility :=
  (nearbyUnsorted dist latitude longitude plastic_type radius_km facilities).insertionSort nearbyLE

/-- `Database.add_classification_history`: unconditionally INSERT the row
(no validation of `confidence` or `plastic_type` happens anywhere in the
function) and return the fresh rowid.  `now` is the server-assigned
`CURRENT_TIMESTAMP`. -/
def add_classification_history (now : ℤ) (plastic_type : String) (confidence : ℚ)
    (image_name : Option String) (s : DBState) : ℕ × DBState :=
  (s.nextHistoryId,
   { s with
     history := s.history ++ [⟨s.nextHistoryId, plastic_type, confidence, image_name, now⟩]
     nextHistoryId := s.nextHistoryId + 1 })

/-- Sort relation of `ORDER BY timestamp DESC`: newer (larger) timestamps
first. -/
def historyDescLE (a b : LedgerEntry) : Prop := b.timestamp ≤ a.timestamp

instance : DecidableRel historyDescLE :=
  fun a b => inferInstanceAs (Decidable (b.timestamp ≤ a.timestamp))

instance : IsTotal LedgerEntry historyDescLE := ⟨fun a b => le_total b.timestamp a.timestamp⟩

instance : IsTrans LedgerEntry historyDescLE := ⟨fun _ _ _ h1 h2 => le_trans h2 h1⟩

/-- `Database.get_classification_history`: `ORDER BY timestamp DESC LIMIT ?
OFFSET ?`.  SQLite leaves the relative order of equal timestamps
unspecified; the model resolves it stably (equal keys stay in rowid
order). -/
def get_classification_history (limit : ℕ) (offset : ℕ) (s : DBState) : List LedgerEntry :=
  (((s.history.insertionSort historyDescLE).drop offset).take limit)

/-- `Database.delete_history_record`: DELETE by id, report whether any row
was removed. -/
def delete_history_record (record_id : ℕ) (s : DBState) : Bool × DBState :=
  (s.history.any (fun e => e.id == record_id),
   { s with history := s.history.filter (fun e => ¬ e.id = record_id) })

/-- `Database.add_facility`: INSERT a facility row, return the fresh rowid. -/
def add_facility (name : String) (latitude longitude : ℚ) (address : String)
    (accepts_pet accepts_hdpe accepts_other : Bool)
    (phone hours website : Option String) (s : DBState) : ℕ × DBState :=
  (s.nextFacilityId,
   { s with
     facilities := s.facilities ++
       [⟨s.nextFacilityId, name, latitude, longitude, address,
         accepts_pet, accepts_hdpe, accepts_other, phone, hours, website⟩]
     nextFacilityId := s.nextFacilityId + 1 })

/-- The `GROUP BY plastic_type` counts of `Database.get_statistics`,
keyed by the distinct categories present in the ledger. -/
def classificationsByType (hist : List LedgerEntry) : List (String × ℕ) :=
  ((hist.map (fun e => e.plastic_type)).dedup).map
    (fun t => (t, (hist.map (fun e => e.plastic_type)).count t))

/-- The dict returned by `Database.get_statistics`. -/
structure Stats where
  total_classifications : ℕ
  classifications_by_type : List (String × ℕ)
  average_confidence : ℚ
  total_facilities : ℕ
  recent_activity_24h : ℕ
deriving DecidableEq, Repr

/-- `Database.get_statistics` at query time `now`: COUNT of ledger rows,
per-category counts, `AVG(confidence)` (NULL coalesced to `0.0` on an
empty table) rounded to four decimals, COUNT of facilities, and the COUNT
of ledger rows with `timestamp >= datetime('now', '-1 day')`. -/
def get_statistics (now : ℤ) (s : DBState) : Stats :=
  { total_classifications := s.history.length
    classifications_by_type := classificationsByType s.history
    average_confidence :=
      if s.history.length = 0 then 0
      else roundTo4 ((s.history.map (fun e => e.confidence)).sum / s.history.length)
    total_facilities := s.facilities.length
    recent_activity_24h :=
      (s.history.filter (fun e => decide (now - 86400 ≤ e.timestamp))).length }

/-- Accept flag of a facility for one of the three known categories (the
column that the SQL filter of `get_nearby_facilities` tests). -/
def acceptFlag (category : String) (f : Facility) : Bool :=
  if category = "PET" then f.accepts_pet
  else if category = "HDPE" then f.accepts_hdpe
  else if category = "OTHER" then f.accepts_other
  else true

/-- Python `math.radians`: degrees to radians. -/
noncomputable def radians (x : ℝ) : ℝ := x * (Real.pi / 180)

open scoped Classical in
/-- The C library `atan2(y, x)` that Python `math.atan2` exposes. -/
noncomputable def atan2 (y x : ℝ) : ℝ :=
  if 0 < x then Real.arctan (y / x)
  else if x < 0 ∧ 0 ≤ y then Real.arctan (y / x) + Real.pi
  else if x < 0 ∧ y < 0 then Real.arctan (y / x) - Real.pi
  else if x = 0 ∧ 0 < y then Real.pi / 2
  else if x = 0 ∧ y < 0 then -(Real.pi / 2)
  else 0

/-- `Database._calculate_distance`: the haversine great-circle distance in
kilometers between two coordinate pairs given in degrees, on a sphere of
radius 6371 km.  Transcribed line by line from the source (the leading
underscore of the Python name is dropped). -/
noncomputable def calculate_distance (lat1 lon1 lat2 lon2 : ℝ) : ℝ :=
  let R : ℝ := 6371
  let lat1_rad := radians lat1
  let lat2_rad := radians lat2
  let delta_lat := radians (lat2 - lat1)
  let delta_lon := radians (lon2 - lon1)
  let a := Real.sin (delta_lat / 2) ^ 2 +
    Real.cos lat1_rad * Real.cos lat2_rad * Real.sin (delta_lon / 2) ^ 2
  let c := 2 * atan2 (Real.sqrt a) (Real.sqrt (1 - a))
  R * c

/-- The class-index-to-name table `PlasticClassifier.CLASSES`; indexing a
missing key raises `KeyError`, modelled by `none`. -/
def CLASSES (i : ℕ) : Option String :=
  if i = 0 then some "PET" else if i = 1 then some "HDPE" else if i = 2 then some "OTHER" else none

/-- One entry of `PlasticClassifier.MATERIAL_INFO`. -/
structure MaterialInfo where
  full_name : String
  recycling_code : String
  recyclability : String
  common_items : List String
  value_per_kg : ℚ
  curbside_accepted : Bool
  instructions : String
  color : String
  tips : List String
  environmental_impact : String
deriving DecidableEq, Repr

/-- The immutable reference table `PlasticClassifier.MATERIAL_INFO`. -/
def MATERIAL_INFO (c : String) : Option MaterialInfo :=
  if c = "PET" then some
    { full_name := "Polyethylene Terephthalate"
      recycling_code := "#1"
      recyclability := "High"
      common_items := ["Water bottles", "Soda bottles", "Food containers",
        "Peanut butter jars", "Salad containers"]
      value_per_kg := 0.12
      curbside_accepted := true
      instructions := "Rinse clean, remove caps and labels, flatten bottles before recycling"
      color := "#2E7D32"
      tips := ["✅ Most widely recycled plastic worldwide",
        "♻️ Can be recycled into fleece, carpet, new bottles, and clothing",
        "⚠️ Remove labels if possible for better recycling",
        "💡 Look for the #1 symbol inside the recycling triangle"]
      environmental_impact := "High recycling rate reduces oil consumption and landfill waste" }
  else if c = "HDPE" then some
    { full_name := "High-Density Polyethylene"
      recycling_code := "#2"
      recyclability := "High"
      common_items := ["Milk jugs", "Shampoo bottles", "Detergent bottles",
        "Motor oil containers", "Grocery bags"]
      value_per_kg := 0.18
      curbside_accepted := true
      instructions := "Rinse thoroughly, caps can stay on, empty completely"
      color := "#1976D2"
      tips := ["✅ Second most recycled plastic - very valuable",
        "♻️ Recycled into plastic lumber, pipes, bottles, and toys",
        "💪 Very durable and easy to recycle",
        "💡 Identified by #2 inside recycling symbol"]
      environmental_impact := "Highly recyclable, reduces need for virgin plastic production" }
  else if c = "OTHER" then some
    { full_name := "Other Plastics (Mixed)"
      recycling_code := "#7"
      recyclability := "Variable"
      common_items := ["Mixed plastic materials", "Some food containers", "Certain bottles",
        "Composite materials", "BPA-containing plastics"]
      value_per_kg := 0.02
      curbside_accepted := false
      instructions := "Check with local facility - may need special drop-off location"
      color := "#757575"
      tips := ["⚠️ Recycling availability depends heavily on local facilities",
        "📍 May need specialized recycling center",
        "❓ Check for other recycling codes on the item",
        "🔍 Some #7 plastics are biodegradable, others are not"]
      environmental_impact := "Mixed environmental impact - check local recycling options" }
  else none

/-- Maximum of a list of rationals (helper for `argmaxIdx`). -/
def listMax : List ℚ → ℚ
  | [] => 0
  | [x] => x
  | x :: y :: rest => max x (listMax (y :: rest))

/-- `np.argmax`: index of the first occurrence of the maximum. -/
def argmaxIdx : List ℚ → ℕ
  | [] => 0
  | [_] => 0
  | x :: y :: rest => if listMax (y :: rest) ≤ x then 0 else argmaxIdx (y :: rest) + 1

/-- The `all_probabilities` dict comprehension
`{self.CLASSES[i]: float(class_probs[i]) for i in range(len(class_probs))}`;
`none` models the `KeyError` raised when the vector is longer than the
class table. -/
def allProbabilities (probs : List ℚ) : Option (List (String × ℚ)) :=
  (List.range probs.length).mapM (fun i =>
    match CLASSES i with
    | some c => some (c, probs.getD i 0)
    | none => none)

/-- The dict a successful `PlasticClassifier.predict` call returns (the
purely cosmetic `confidence_percent` string, a fixed-point rendering of
`confidence`, is not modelled). -/
structure PredictSuccess where
  predicted_class : String
  confidence : ℚ
  full_name : String
  recycling_code : String
  recyclability : String
  common_items : List String
  value_per_kg : ℚ
  curbside_accepted : Bool
  instructions : String
  tips : List String
  color : String
  environmental_impact : String
  all_probabilities : List (String × ℚ)
deriving DecidableEq, Repr

/-- Result of `PlasticClassifier.predict`: either the success dict
(`success = True`) or a failure dict, which carries `success = False` and a
single `error` string and nothing else. -/
inductive PredictResult where
  | success (r : PredictSuccess)
  | failure (error : String)
deriving DecidableEq, Repr

/-- `PlasticClassifier.predict`.  The two external effects are passed in as
functions: `decode` models `preprocess_image` (PIL decoding, mode
conversion, resizing, scaling — anything it raises is caught by the
`except` block), and `model` models the loaded TensorFlow model, `none`
when `self.model` is `None` and the implicit `load_model` attempt fails.
`Except.error` carries the exception message `str(e)`; a `CLASSES[...]`
`KeyError i` stringifies to `str(i)`. -/
def predict {ImgData Img : Type} (model : Option (Img → Except String (List ℚ)))
    (decode : ImgData → Except String Img) (image_data : ImgData) : PredictResult :=
  match model with
  | none => .failure "Model not loaded. Please train the model first."
  | some m =>
    match decode image_data with
    | .error e => .failure e
    | .ok img =>
      match m img with
      | .error e => .failure e
      | .ok class_probs =>
        match class_probs with
        | [] => .failure "attempt to get argmax of an empty sequence"
        | _ :: _ =>
          let idx := argmaxIdx class_probs
          match CLASSES idx with
          | none => .failure (toString idx)
          | some predicted_class =>
            match MATERIAL_INFO predicted_class with
            | none => .failure predicted_class
            | some info =>
              match allProbabilities class_probs with
              | none => .failure "3"
              | some aps =>
                .success
                  { predicted_class := predicted_class
                    confidence := class_probs.getD idx 0
                    full_name := info.full_name
                    recycling_code := info.recycling_code
                    recyclability := info.recyclability
                    common_items := info.common_items
                    value_per_kg := info.value_per_kg
                    curbside_accepted := info.curbside_accepted
                    instructions := info.instructions
                    tips := info.tips
                    color := info.color
                    environmental_impact := info.environmental_impact
                    all_probabilities := aps }

/-- `PlasticClassifier.get_confidence_interpretation`. -/
def get_confidence_interpretation (confidence : ℚ) : String :=
  if 9/10 ≤ confidence then "Very High - Excellent prediction quality"
  else if 3/4 ≤ confidence then "High - Good prediction quality"
  else if 3/5 ≤ confidence then "Moderate - Acceptable prediction"
  else if 2/5 ≤ confidence then "Low - Consider retaking photo"
  else "Very Low - Please retake with better lighting/angle"

/-- A distance function that is constantly 1 km (used to instantiate the
generic theorems at a concrete input). -/
def distOne : ℚ → ℚ → ℚ → ℚ → ℚ := fun _ _ _ _ => 1

/-- A concrete registered facility accepting PET and HDPE. -/
def facA : Facility :=
  ⟨1, "EcoRecycle Center", 0, 0, "MG Road", true, true, false, none, none, none⟩

/-- A second concrete registered facility, at latitude 1. -/
def facB : Facility :=
  ⟨2, "Green Earth Recycling", 1, 0, "Indiranagar", true, true, true, none, none, none⟩

/-- A distance function assigning 1.004 km to latitude-0 facilities and
1.001 km to the rest; both values round to 1.00. -/
def distTie : ℚ → ℚ → ℚ → ℚ → ℚ := fun _ _ lat2 _ => if lat2 = 0 then 1.004 else 1.001

/-- A distance function that is constantly 0.9958 km, which rounds up to
1.00 km. -/
def distNear : ℚ → ℚ → ℚ → ℚ → ℚ := fun _ _ _ _ => 9958/10000

/-- A preprocessing stage that always raises (malformed image bytes). -/
def decodeBoom : Unit → Except String Unit := fun _ => .error "boom"

/-- A preprocessing stage that decodes successfully. -/
def decodeOkU : Unit → Except String Unit := fun _ => .ok ()

/-- A model whose forward pass raises internally. -/
def runBoom : Unit → Except String (List ℚ) := fun _ => .error "boom"

/-- A model returning a fixed three-class probability vector. -/
def runOk3 : Unit → Except String (List ℚ) := fun _ => .ok [1/10, 7/10, 1/5]

/-- A ledger state holding one entry with timestamp 10 (id 1). -/
def sTie : DBState := ⟨[⟨1, "PET", 1, none, 10⟩], 2, [], 1⟩

/-- A ledger state holding one entry with confidence 1/50000. -/
def sAvg : DBState := ⟨[⟨1, "PET", 1/50000, none, 0⟩], 2, [], 1⟩

-- ===================================================================
-- Helper lemmas
-- ===================================================================

theorem pyUpper_PET : pyUpper "PET" = "PET" := by decide

theorem pyUpper_HDPE : pyUpper "HDPE" = "HDPE" := by decide

theorem pyUpper_OTHER : pyUpper "OTHER" = "OTHER" := by decide

/-- Membership in the pre-sort `nearby` list, characterised. -/
theorem mem_nearbyUnsorted_iff {dist : ℚ → ℚ → ℚ → ℚ → ℚ} {lat lon radius_km : ℚ}
    {pt : Option String} {fs : List Facility} {x : NearbyFacility} :
    x ∈ nearbyUnsorted dist lat lon pt radius_km fs ↔
      ∃ f ∈ fs, plasticTypeFilter pt f = true ∧
        dist lat lon f.latitude f.longitude ≤ radius_km ∧
        x = annotateFacility (dist lat lon f.latitude f.longitude) f := by
  simp only [nearbyUnsorted, List.mem_filterMap, List.mem_filter]
  constructor
  · rintro ⟨f, ⟨hmem, hflt⟩, hsome⟩
    by_cases hd : dist lat lon f.latitude f.longitude ≤ radius_km
    · rw [if_pos hd] at hsome
      exact ⟨f, hmem, hflt, hd, (Option.some.injEq _ _ ▸ hsome).symm⟩
    · rw [if_neg hd] at hsome
      exact absurd hsome (by simp)
  · rintro ⟨f, hmem, hflt, hd, rfl⟩
    exact ⟨f, ⟨hmem, hflt⟩, by rw [if_pos hd]⟩

/-- Filtering on an exact `distance_km` key commutes with `orderedInsert`. -/
theorem filter_distance_orderedInsert (q : ℚ) (x : NearbyFacility) :
    ∀ l : List NearbyFacility,
      (List.orderedInsert nearbyLE x l).filter (fun a => decide (a.distance_km = q)) =
        if x.distance_km = q
        then x :: l.filter (fun a => decide (a.distance_km = q))
        else l.filter (fun a => decide (a.distance_km = q))
  | [] => by by_cases hx : x.distance_km = q <;> simp [List.orderedInsert, hx]
  | y :: l => by
    rw [List.orderedInsert]
    by_cases hxy : nearbyLE x y
    · rw [if_pos hxy]
      by_cases hx : x.distance_km = q <;> simp [List.filter_cons, hx]
    · rw [if_neg hxy]
      have hylt : y.distance_km < x.distance_km := lt_of_not_le hxy
      by_cases hx : x.distance_km = q
      · have hy : ¬ y.distance_km = q := by rw [← hx]; exact ne_of_lt hylt
        simp [List.filter_cons, hy, hx, filter_distance_orderedInsert q x l]
      · by_cases hy : y.distance_km = q <;>
          simp [List.filter_cons, hy, hx, filter_distance_orderedInsert q x l]

/-- Stability of the final sort of `get_nearby_facilities`: the entries
with any fixed (rounded) distance appear in the same order as in the
pre-sort list, i.e. in registration order. -/
theorem filter_distance_insertionSort (q : ℚ) :
    ∀ l : List NearbyFacility,
      (l.insertionSort nearbyLE).filter (fun a => decide (a.distance_km = q)) =
        l.filter (fun a => decide (a.distance_km = q))
  | [] => rfl
  | x :: l => by
    rw [List.insertionSort, filter_distance_orderedInsert, List.filter_cons]
    by_cases hx : x.distance_km = q <;>
      simp [hx, filter_distance_insertionSort q l]

/-- The first-maximum index returned by `argmaxIdx` is a valid index. -/
theorem argmaxIdx_lt_length : ∀ (l : List ℚ), l ≠ [] → argmaxIdx l < l.length
  | [], h => absurd rfl h
  | [_], _ => by simp [argmaxIdx]
  | _ :: y :: rest, _ => by
    rw [argmaxIdx]
    split
    · simp
    · have h := argmaxIdx_lt_length (y :: rest) (by simp)
      simpa using Nat.succ_lt_succ h

/-- On a three-element vector `argmaxIdx` is 0, 1 or 2. -/
theorem argmaxIdx_three (p0 p1 p2 : ℚ) :
    argmaxIdx [p0, p1, p2] = 0 ∨ argmaxIdx [p0, p1, p2] = 1 ∨ argmaxIdx [p0, p1, p2] = 2 := by
  have h := argmaxIdx_lt_length [p0, p1, p2] (by simp)
  simp only [List.length_cons, List.length_nil] at h
  omega

/-- `atan2` of two non-negative arguments is non-negative. -/
theorem atan2_nonneg {y x : ℝ} (hy : 0 ≤ y) (hx : 0 ≤ x) : 0 ≤ atan2 y x := by
  rw [atan2]
  split_ifs with h1 h2 h3 h4 h5
  · have h := Real.arctan_strictMono.monotone (div_nonneg hy h1.le)
    rwa [Real.arctan_zero] at h
  · exact absurd h2.1 (not_lt.mpr hx)
  · exact absurd h3.1 (not_lt.mpr hx)
  · positivity
  · exact absurd h5.2 (not_lt.mpr hy)
  · exact le_refl 0

/-- Summing an indicator over a duplicate-free list not containing the
point gives 0. -/
theorem sum_ind_of_not_mem (a : String) :
    ∀ m : List String, a ∉ m → (m.map (fun t => if t = a then (1 : ℕ) else 0)).sum = 0
  | [], _ => rfl
  | b :: m, h => by
    have hb : ¬ b = a := fun hba => h (hba ▸ List.mem_cons_self b m)
    simp only [List.map_cons, List.sum_cons, if_neg hb,
      sum_ind_of_not_mem a m (fun hm => h (List.mem_cons_of_mem b hm))]

/-- Summing an indicator over a duplicate-free list containing the point
gives 1. -/
theorem sum_ind_of_mem (a : String) :
    ∀ m : List String, m.Nodup → a ∈ m →
      (m.map (fun t => if t = a then (1 : ℕ) else 0)).sum = 1
  | [], _, hm => absurd hm (List.not_mem_nil a)
  | b :: m, hnd, hm => by
    rcases List.mem_cons.mp hm with rfl | hm'
    · have : a ∉ m := (List.nodup_cons.mp hnd).1
      simp [sum_ind_of_not_mem a m this]
    · have hb : ¬ b = a := fun hba => (List.nodup_cons.mp hnd).1 (hba ▸ hm')
      simp only [List.map_cons, List.sum_cons, if_neg hb, Nat.zero_add,
        sum_ind_of_mem a m (List.nodup_cons.mp hnd).2 hm']

/-- Pointwise sums of natural-valued maps split. -/
theorem sum_map_add_nat (f g : String → ℕ) :
    ∀ m : List String, (m.map (fun t => f t + g t)).sum = (m.map f).sum + (m.map g).sum
  | [] => rfl
  | b :: m => by
    simp only [List.map_cons, List.sum_cons, sum_map_add_nat f g m]
    omega

/-- The grouped counts over the distinct keys sum to the list length. -/
theorem sum_counts_dedup : ∀ l : List String, (l.dedup.map (fun t => l.count t)).sum = l.length
  | [] => rfl
  | a :: l => by
    have hpt : ∀ t ∈ l.dedup, (a :: l).count t = l.count t + (if t = a then 1 else 0) := by
      intro t _
      by_cases hta : t = a
      · subst hta
        rw [List.count_cons_self, if_pos rfl]
      · rw [List.count_cons_of_ne hta, if_neg hta, Nat.add_zero]
    by_cases h : a ∈ l
    · rw [List.dedup_cons_of_mem h, List.map_congr_left hpt, sum_map_add_nat,
        sum_counts_dedup l, sum_ind_of_mem a l.dedup (List.nodup_dedup l) (List.mem_dedup.mpr h),
        List.length_cons]
    · rw [List.dedup_cons_of_not_mem h, List.map_cons, List.sum_cons, List.count_cons_self,
        List.count_eq_zero_of_not_mem h, List.map_congr_left hpt, sum_map_add_nat,
        sum_counts_dedup l, sum_ind_of_not_mem a l.dedup (fun hm => h (List.mem_dedup.mp hm)),
        List.length_cons]
      omega

/-- Rounding to four decimals moves a rational by at most `1/20000`. -/
theorem abs_roundTo4_sub (q : ℚ) : |roundTo4 q - q| ≤ 1/20000 := by
  have h : (⌊q * 10000 + 1/2⌋ : ℤ) = round (q * 10000) := (round_eq (q * 10000)).symm
  rw [roundTo4, h]
  have h2 : |q * 10000 - (round (q * 10000) : ℚ)| ≤ 1/2 := abs_sub_round (q * 10000)
  have h3 : ((round (q * 10000) : ℤ) : ℚ) / 10000 - q =
      -((q * 10000 - (round (q * 10000) : ℚ)) / 10000) := by ring
  rw [h3, abs_neg, abs_div, abs_of_pos (show (0:ℚ) < 10000 by norm_num)]
  calc |q * 10000 - (round (q * 10000) : ℚ)| / 10000 ≤ (1/2) / 10000 := by gcongr
    _ = 1/20000 := by norm_num

-- ===================================================================
-- Claim theorems
-- ===================================================================

/-- C6: for all coordinate pairs (in degrees) the haversine calculator
`calculate_distance` (Earth radius 6371 km) is symmetric, non-negative,
and exactly zero on coincident points (so in particular within the 1e-9
tolerance the spec allows). -/
theorem calculate_distance_metric_props (lat1 lon1 lat2 lon2 : ℝ) :
    calculate_distance lat1 lon1 lat2 lon2 = calculate_distance lat2 lon2 lat1 lon1 ∧
    0 ≤ calculate_distance lat1 lon1 lat2 lon2 ∧
    calculate_distance lat1 lon1 lat1 lon1 = 0 := by
  refine ⟨?_, ?_, ?_⟩
  · simp only [calculate_distance]
    have hsin : ∀ u v : ℝ,
        Real.sin (radians (u - v) / 2) ^ 2 = Real.sin (radians (v - u) / 2) ^ 2 := by
      intro u v
      have h : radians (u - v) = -(radians (v - u)) := by
        simp only [radians]; ring
      rw [h, neg_div, Real.sin_neg]
      ring
    rw [hsin lat2 lat1, hsin lon2 lon1,
      mul_comm (Real.cos (radians lat1)) (Real.cos (radians lat2))]
  · simp only [calculate_distance]
    have h := atan2_nonneg (Real.sqrt_nonneg
      (Real.sin (radians (lat2 - lat1) / 2) ^ 2 +
        Real.cos (radians lat1) * Real.cos (radians lat2) *
          Real.sin (radians (lon2 - lon1) / 2) ^ 2))
      (Real.sqrt_nonneg (1 - (Real.sin (radians (lat2 - lat1) / 2) ^ 2 +
        Real.cos (radians lat1) * Real.cos (radians lat2) *
          Real.sin (radians (lon2 - lon1) / 2) ^ 2)))
    nlinarith [h]
  · simp only [calculate_distance, sub_self]
    have h0 : radians 0 = 0 := by simp [radians]
    rw [h0]
    norm_num [Real.sin_zero, Real.sqrt_zero, Real.sqrt_one, atan2, Real.arctan_zero]

/-- C3 (amended): `add_classification_history` performs no validation at
all: for every confidence (also outside [0,1]) and every category string
(also unknown ones) it inserts the row with the values stored verbatim and
returns the fresh rowid.  It never fails with a validation error and never
coerces the values. -/
theorem add_history_no_validation (s : DBState) (now : ℤ) (pt : String) (conf : ℚ)
    (name : Option String) :
    (add_classification_history now pt conf name s).2.history =
      s.history ++ [⟨s.nextHistoryId, pt, conf, name, now⟩] ∧
    (add_classification_history now pt conf name s).1 = s.nextHistoryId ∧
    (add_classification_history now pt conf name s).2.nextHistoryId = s.nextHistoryId + 1 :=
  ⟨rfl, rfl, rfl⟩

/-- C3 counterexample: appending with confidence 2 (outside [0,1]) and the
unknown category "BANANA" does not fail: it inserts the entry unchanged
and returns rowid 1, contradicting the claim that such an append fails
with a validation error and does not insert. -/
theorem add_history_accepts_invalid :
    (add_classification_history 0 "BANANA" 2 none ⟨[], 1, [], 1⟩).2.history =
      [⟨1, "BANANA", 2, none, 0⟩] ∧
    (add_classification_history 0 "BANANA" 2 none ⟨[], 1, [], 1⟩).1 = 1 :=
  ⟨rfl, rfl⟩

/-- C4 (amended): `predict` never lets an exception escape: every call
returns either a success dict or a failure dict.  A missing model yields
the fixed message failure, a decoding (preprocessing) exception and any
internal exception yield a failure carrying exactly the exception message.
The failure dict however carries no machine-readable tag such as
`decode_error` / `model_unavailable` / `internal_error` — only
`success = False` and the message. -/
theorem predict_failure_contract :
    (∀ (ImgData Img : Type) (decode : ImgData → Except String Img) (d : ImgData),
      predict (none : Option (Img → Except String (List ℚ))) decode d =
        .failure "Model not loaded. Please train the model first.") ∧
    (∀ (ImgData Img : Type) (m : Img → Except String (List ℚ))
        (decode : ImgData → Except String Img) (d : ImgData) (e : String),
      decode d = .error e → predict (some m) decode d = .failure e) ∧
    (∀ (ImgData Img : Type) (m : Img → Except String (List ℚ))
        (decode : ImgData → Except String Img) (d : ImgData) (img : Img) (e : String),
      decode d = .ok img → m img = .error e → predict (some m) decode d = .failure e) ∧
    (∀ (ImgData Img : Type) (m : Option (Img → Except String (List ℚ)))
        (decode : ImgData → Except String Img) (d : ImgData),
      (∃ r, predict m decode d = .success r) ∨ (∃ e, predict m decode d = .failure e)) := by
  refine ⟨fun _ _ _ _ => rfl, ?_, ?_, ?_⟩
  · intro ImgData Img m decode d e hdec
    simp only [predict, hdec]
  · intro ImgData Img m decode d img e hdec hrun
    simp only [predict, hdec, hrun]
  · intro ImgData Img m decode d
    cases h : predict m decode d with
    | success r => exact Or.inl ⟨r, rfl⟩
    | failure e => exact Or.inr ⟨e, rfl⟩

/-- C4 witness: a concrete malformed input (its preprocessing raises with
message "boom") produces the failure dict carrying that message. -/
theorem predict_failure_contract_witness :
    decodeBoom () = Except.error "boom" ∧
    predict (some runOk3) decodeBoom () = .failure "boom" :=
  ⟨rfl, predict_failure_contract.2.1 Unit Unit runOk3 decodeBoom () "boom" rfl⟩

/-- C4 counterexample: a decode failure and an unrelated internal model
failure with the same message produce identical result dicts, so the
failure result carries no tag distinguishing `decode_error` from
`internal_error` (contradicting the claim that every failure result is
tagged with one of the three tag values). -/
theorem predict_failures_untagged :
    predict (some runOk3) decodeBoom () = predict (some runBoom) decodeOkU () ∧
    predict (some runOk3) decodeBoom () = .failure "boom" :=
  ⟨rfl, rfl⟩

/-- C8: whenever the model returns a three-entry probability vector, the
successful `predict` result reports the category of the first-maximum
index (`np.argmax`), reports as confidence exactly that entry of the
vector, and returns an `all_probabilities` map with exactly one entry per
category, in class order. -/
theorem predict_argmax_contract (ImgData Img : Type) (m : Img → Except String (List ℚ))
    (decode : ImgData → Except String Img) (d : ImgData) (img : Img) (p0 p1 p2 : ℚ)
    (hdec : decode d = .ok img) (hrun : m img = .ok [p0, p1, p2]) :
    ∃ r, predict (some m) decode d = .success r ∧
      CLASSES (argmaxIdx [p0, p1, p2]) = some r.predicted_class ∧
      r.confidence = [p0, p1, p2].getD (argmaxIdx [p0, p1, p2]) 0 ∧
      r.all_probabilities = [("PET", p0), ("HDPE", p1), ("OTHER", p2)] := by
  rcases argmaxIdx_three p0 p1 p2 with hidx | hidx | hidx <;>
    simp only [predict, hdec, hrun, hidx] <;>
    exact ⟨_, rfl, rfl, rfl, rfl⟩

/-- C8 witness: instantiation at the concrete vector [0.1, 0.7, 0.2]. -/
theorem predict_argmax_contract_witness :
    decodeOkU () = Except.ok () ∧ runOk3 () = Except.ok [1/10, 7/10, 1/5] ∧
    ∃ r, predict (some runOk3) decodeOkU () = .success r ∧
      CLASSES (argmaxIdx [1/10, 7/10, 1/5]) = some r.predicted_class ∧
      r.confidence = [1/10, 7/10, 1/5].getD (argmaxIdx [1/10, 7/10, 1/5]) 0 ∧
      r.all_probabilities = [("PET", 1/10), ("HDPE", 7/10), ("OTHER", 1/5)] :=
  ⟨rfl, rfl, predict_argmax_contract Unit Unit runOk3 decodeOkU () ()
    (1/10) (7/10) (1/5) rfl rfl⟩

/-- C1: for the three known categories every facility returned by
`get_nearby_facilities` has (unrounded) computed distance at most
`radius_km` and has the accept flag of the requested category true; with
the category omitted the result consists of exactly the registered
facilities within the radius (annotated), with no acceptance filtering. -/
theorem nearby_radius_and_acceptance (dist : ℚ → ℚ → ℚ → ℚ → ℚ) (lat lon radius_km : ℚ)
    (fs : List Facility) :
    (∀ c : String, c = "PET" ∨ c = "HDPE" ∨ c = "OTHER" →
      ∀ x ∈ get_nearby_facilities dist lat lon (some c) radius_km fs,
        dist lat lon x.facility.latitude x.facility.longitude ≤ radius_km ∧
        acceptFlag c x.facility = true) ∧
    (get_nearby_facilities dist lat lon none radius_km fs).Perm
      (fs.filterMap (fun f =>
        if dist lat lon f.latitude f.longitude ≤ radius_km
        then some (annotateFacility (dist lat lon f.latitude f.longitude) f) else none)) := by
  constructor
  · intro c hc x hx
    rw [get_nearby_facilities, List.mem_insertionSort, mem_nearbyUnsorted_iff] at hx
    obtain ⟨f, _, hflt, hd, rfl⟩ := hx
    refine ⟨hd, ?_⟩
    rcases hc with rfl | rfl | rfl <;> exact hflt
  · rw [get_nearby_facilities]
    refine (List.perm_insertionSort nearbyLE _).trans ?_
    rw [nearbyUnsorted,
      show List.filter (plasticTypeFilter none) fs = fs from
        List.filter_eq_self.mpr (fun a _ => rfl)]

/-- C1 witness: instantiation at a constant 1 km distance function, origin
(0,0), category PET, radius 5 km and a single registered facility. -/
theorem nearby_radius_and_acceptance_witness :
    ("PET" = "PET" ∨ "PET" = "HDPE" ∨ "PET" = "OTHER") ∧
    (∀ x ∈ get_nearby_facilities distOne 0 0 (some "PET") 5 [facA],
      distOne 0 0 x.facility.latitude x.facility.longitude ≤ 5 ∧
      acceptFlag "PET" x.facility = true) :=
  ⟨Or.inl rfl, (nearby_radius_and_acceptance distOne 0 0 5 [facA]).1 "PET" (Or.inl rfl)⟩

/-- C2 (amended): `query_nearby` results are sorted non-decreasing by the
annotated `distance_km`, i.e. by the computed distance ROUNDED to two
decimals (not by the unrounded computed distance, see the counterexample),
and within each equal rounded distance — in particular for exactly equal
computed distances — the entries keep their insertion (registration)
order, because the pre-sort list is in registration order and the sort is
stable. -/
theorem nearby_sorted_by_rounded_stable (dist : ℚ → ℚ → ℚ → ℚ → ℚ) (lat lon radius_km : ℚ)
    (pt : Option String) (fs : List Facility) :
    (get_nearby_facilities dist lat lon pt radius_km fs).Sorted nearbyLE ∧
    ∀ q : ℚ, (get_nearby_facilities dist lat lon pt radius_km fs).filter
        (fun x => decide (x.distance_km = q)) =
      (nearbyUnsorted dist lat lon pt radius_km fs).filter
        (fun x => decide (x.distance_km = q)) :=
  ⟨List.sorted_insertionSort nearbyLE _, fun q => filter_distance_insertionSort q _⟩

/-- C2 counterexample: with computed distances 1.004 km (facility A,
registered first) and 1.001 km (facility B), both rounding to 1.00, the
result keeps registration order [A, B] and is therefore NOT sorted
non-decreasing by the computed (unrounded) great-circle distance. -/
theorem nearby_not_sorted_by_true_distance :
    get_nearby_facilities distTie 0 0 none 2 [facA, facB] =
      [⟨facA, 1, ["PET", "HDPE"]⟩, ⟨facB, 1, ["PET", "HDPE", "OTHER"]⟩] ∧
    ¬ (get_nearby_facilities distTie 0 0 none 2 [facA, facB]).Sorted
        (fun a b => distTie 0 0 a.facility.latitude a.facility.longitude ≤
          distTie 0 0 b.facility.latitude b.facility.longitude) := by
  have hres : get_nearby_facilities distTie 0 0 none 2 [facA, facB] =
      [⟨facA, 1, ["PET", "HDPE"]⟩, ⟨facB, 1, ["PET", "HDPE", "OTHER"]⟩] := by
    norm_num [get_nearby_facilities, nearbyUnsorted, annotateFacility, roundTo2, acceptsTypes,
      plasticTypeFilter, distTie, facA, facB, List.insertionSort, List.orderedInsert,
      List.filterMap, List.filter, nearbyLE]
  refine ⟨hres, fun h => ?_⟩
  rw [hres, List.sorted_cons] at h
  have h2 := h.1 _ (List.mem_singleton_self _)
  norm_num [distTie, facA, facB] at h2

/-- C9: the category argument of `get_nearby_facilities` is upper-cased
before comparison (so matching is case-insensitive), and every category
whose upper-cased form is not PET, HDPE or OTHER applies no acceptance
filter at all, behaving exactly like an omitted category. -/
theorem nearby_plastic_type_case_insensitive (dist : ℚ → ℚ → ℚ → ℚ → ℚ)
    (lat lon radius_km : ℚ) (fs : List Facility) (s : String) :
    ((pyUpper s = "PET" ∨ pyUpper s = "HDPE" ∨ pyUpper s = "OTHER") →
      get_nearby_facilities dist lat lon (some s) radius_km fs =
        get_nearby_facilities dist lat lon (some (pyUpper s)) radius_km fs) ∧
    (pyUpper s ≠ "PET" → pyUpper s ≠ "HDPE" → pyUpper s ≠ "OTHER" →
      get_nearby_facilities dist lat lon (some s) radius_km fs =
        get_nearby_facilities dist lat lon none radius_km fs) := by
  have key : ∀ pt1 pt2 : Option String,
      (∀ f, plasticTypeFilter pt1 f = plasticTypeFilter pt2 f) →
      get_nearby_facilities dist lat lon pt1 radius_km fs =
        get_nearby_facilities dist lat lon pt2 radius_km fs := by
    intro pt1 pt2 h
    rw [get_nearby_facilities, get_nearby_facilities, nearbyUnsorted, nearbyUnsorted,
      List.filter_congr (fun a _ => h a)]
  constructor
  · intro hup
    apply key
    intro f
    by_cases hs : s = ""
    · subst hs
      rcases hup with h | h | h <;> exact absurd h (by decide)
    · rcases hup with h | h | h <;>
        simp only [plasticTypeFilter, if_neg hs, h, pyUpper_PET, pyUpper_HDPE, pyUpper_OTHER] <;>
        simp
  · intro h1 h2 h3
    apply key
    intro f
    by_cases hs : s = ""
    · subst hs; rfl
    · simp only [plasticTypeFilter, if_neg hs, if_neg h1, if_neg h2, if_neg h3]

/-- C9 witness: category "pet" behaves exactly like "PET". -/
theorem nearby_plastic_type_case_insensitive_witness :
    (pyUpper "pet" = "PET" ∨ pyUpper "pet" = "HDPE" ∨ pyUpper "pet" = "OTHER") ∧
    get_nearby_facilities distOne 0 0 (some "pet") 5 [facA] =
      get_nearby_facilities distOne 0 0 (some (pyUpper "pet")) 5 [facA] :=
  ⟨Or.inl (by decide),
    (nearby_plastic_type_case_insensitive distOne 0 0 5 [facA] "pet").1 (Or.inl (by decide))⟩

/-- C10: the annotated `distance_km` of every returned facility is the
computed distance rounded to two decimals while the radius filter uses the
unrounded distance; the final sort orders by the rounded annotation; and
on a concrete input (true distance 0.9958 km, radius 0.9959 km) a facility
is returned whose annotated `distance_km` = 1.00 exceeds the radius even
though its true distance does not. -/
theorem nearby_rounded_annotation :
    (∀ (dist : ℚ → ℚ → ℚ → ℚ → ℚ) (lat lon radius_km : ℚ) (pt : Option String)
        (fs : List Facility),
      ∀ x ∈ get_nearby_facilities dist lat lon pt radius_km fs,
        x.distance_km = roundTo2 (dist lat lon x.facility.latitude x.facility.longitude) ∧
        dist lat lon x.facility.latitude x.facility.longitude ≤ radius_km) ∧
    (∀ (dist : ℚ → ℚ → ℚ → ℚ → ℚ) (lat lon radius_km : ℚ) (pt : Option String)
        (fs : List Facility),
      (get_nearby_facilities dist lat lon pt radius_km fs).Sorted nearbyLE) ∧
    (get_nearby_facilities distNear 0 0 none (9959/10000) [facA] =
        [⟨facA, 1, ["PET", "HDPE"]⟩] ∧
      distNear 0 0 facA.latitude facA.longitude ≤ 9959/10000 ∧
      (9959/10000 : ℚ) < 1) := by
  refine ⟨?_, fun dist lat lon radius_km pt fs => List.sorted_insertionSort nearbyLE _, ?_, ?_, ?_⟩
  · intro dist lat lon radius_km pt fs x hx
    rw [get_nearby_facilities, List.mem_insertionSort, mem_nearbyUnsorted_iff] at hx
    obtain ⟨f, _, _, hd, rfl⟩ := hx
    exact ⟨rfl, hd⟩
  · norm_num [get_nearby_facilities, nearbyUnsorted, annotateFacility, roundTo2, acceptsTypes,
      plasticTypeFilter, distNear, facA, List.insertionSort, List.orderedInsert,
      List.filterMap, List.filter]
  · norm_num [distNear, facA]
  · norm_num

/-- C10 witness: the facility returned in the concrete scenario satisfies
the annotation and filter facts of the universal part. -/
theorem nearby_rounded_annotation_witness :
    (⟨facA, 1, ["PET", "HDPE"]⟩ : NearbyFacility) ∈
        get_nearby_facilities distNear 0 0 none (9959/10000) [facA] ∧
    ((⟨facA, 1, ["PET", "HDPE"]⟩ : NearbyFacility).distance_km =
        roundTo2 (distNear 0 0
          (⟨facA, 1, ["PET", "HDPE"]⟩ : NearbyFacility).facility.latitude
          (⟨facA, 1, ["PET", "HDPE"]⟩ : NearbyFacility).facility.longitude) ∧
      distNear 0 0 (⟨facA, 1, ["PET", "HDPE"]⟩ : NearbyFacility).facility.latitude
          (⟨facA, 1, ["PET", "HDPE"]⟩ : NearbyFacility).facility.longitude ≤ 9959/10000) := by
  have hres : get_nearby_facilities distNear 0 0 none (9959/10000) [facA] =
      [⟨facA, 1, ["PET", "HDPE"]⟩] := by
    norm_num [get_nearby_facilities, nearbyUnsorted, annotateFacility, roundTo2, acceptsTypes,
      plasticTypeFilter, distNear, facA, List.insertionSort, List.orderedInsert,
      List.filterMap, List.filter]
  have hmem : (⟨facA, 1, ["PET", "HDPE"]⟩ : NearbyFacility) ∈
      get_nearby_facilities distNear 0 0 none (9959/10000) [facA] := by
    rw [hres]; exact List.mem_singleton_self _
  exact ⟨hmem, nearby_rounded_annotation.1 distNear 0 0 (9959/10000) none [facA] _ hmem⟩

/-- A ledger state holding one entry with timestamp 5 (strictly older than
the append time used in the witness). -/
def sFresh : DBState := ⟨[⟨1, "PET", 1, none, 5⟩], 2, [], 1⟩

/-- C5 (amended): if the appended entry carries a timestamp strictly newer
than every existing entry (which second-granularity `CURRENT_TIMESTAMP`
does NOT guarantee, see the counterexample), `append` followed by
`list(limit=1)` returns exactly the just-appended entry; `append` returns
the fresh `AUTOINCREMENT` id and bumps the counter, so successive ids
strictly increase; and `list` always returns entries newest-first
(non-increasing timestamps). -/
theorem append_then_list_newest (s : DBState) (now : ℤ) (pt : String) (conf : ℚ)
    (name : Option String) (hfresh : ∀ e ∈ s.history, e.timestamp < now) :
    get_classification_history 1 0 (add_classification_history now pt conf name s).2 =
      [⟨s.nextHistoryId, pt, conf, name, now⟩] ∧
    (add_classification_history now pt conf name s).1 = s.nextHistoryId ∧
    (add_classification_history now pt conf name s).2.nextHistoryId = s.nextHistoryId + 1 ∧
    ∀ (limit offset : ℕ) (s2 : DBState),
      (get_classification_history limit offset s2).Pairwise historyDescLE := by
  refine ⟨?_, rfl, rfl, ?_⟩
  · set newE : LedgerEntry := ⟨s.nextHistoryId, pt, conf, name, now⟩ with hnew
    have hhist : (add_classification_history now pt conf name s).2.history =
        s.history ++ [newE] := rfl
    rw [get_classification_history, hhist]
    set L := (s.history ++ [newE]).insertionSort historyDescLE with hL
    have hsorted : L.Sorted historyDescLE := List.sorted_insertionSort _ _
    have hperm : L.Perm (s.history ++ [newE]) := List.perm_insertionSort _ _
    have hlen : L.length = s.history.length + 1 := by
      rw [hperm.length_eq, List.length_append]
      rfl
    cases hLc : L with
    | nil => rw [hLc] at hlen; simp at hlen
    | cons x rest =>
      have hxmem : x ∈ s.history ++ [newE] := hperm.subset (hLc ▸ List.mem_cons_self x rest)
      have hnewmem : newE ∈ L :=
        hperm.mem_iff.mpr (List.mem_append_right _ (List.mem_singleton_self _))
      rw [hLc] at hnewmem hsorted
      have hxnew : x = newE := by
        rcases List.mem_cons.mp hnewmem with h | h
        · exact h.symm
        · rcases List.mem_append.mp hxmem with hxold | hxn
          · have h1 : newE.timestamp ≤ x.timestamp := (List.sorted_cons.mp hsorted).1 newE h
            have h1' : now ≤ x.timestamp := h1
            have h2 := hfresh x hxold
            omega
          · simpa using hxn
      rw [List.drop_zero, hxnew]
      rfl
  · intro limit offset s2
    rw [get_classification_history]
    have hs : (s2.history.insertionSort historyDescLE).Pairwise historyDescLE :=
      List.sorted_insertionSort _ _
    exact List.Pairwise.sublist ((List.take_sublist _ _).trans (List.drop_sublist _ _)) hs

/-- C5 witness: appending at timestamp 11 over a ledger whose single entry
has timestamp 5. -/
theorem append_then_list_newest_witness :
    (∀ e ∈ sFresh.history, e.timestamp < 11) ∧
    (get_classification_history 1 0 (add_classification_history 11 "HDPE" 1 none sFresh).2 =
      [⟨sFresh.nextHistoryId, "HDPE", 1, none, 11⟩] ∧
    (add_classification_history 11 "HDPE" 1 none sFresh).1 = sFresh.nextHistoryId ∧
    (add_classification_history 11 "HDPE" 1 none sFresh).2.nextHistoryId =
      sFresh.nextHistoryId + 1 ∧
    ∀ (limit offset : ℕ) (s2 : DBState),
      (get_classification_history limit offset s2).Pairwise historyDescLE) :=
  ⟨by decide, append_then_list_newest sFresh 11 "HDPE" 1 none (by decide)⟩

/-- C5 counterexample: `CURRENT_TIMESTAMP` has second granularity, so an
append can carry the same timestamp as an existing entry; then `ORDER BY
timestamp DESC` (ties resolved in rowid order) puts the OLD entry first
and `list(limit=1)` does not return the just-appended entry. -/
theorem append_tie_not_newest :
    get_classification_history 1 0 (add_classification_history 10 "HDPE" 1 none sTie).2 =
      [⟨1, "PET", 1, none, 10⟩] ∧
    get_classification_history 1 0 (add_classification_history 10 "HDPE" 1 none sTie).2 ≠
      [⟨2, "HDPE", 1, none, 10⟩] := by
  constructor
  · norm_num [get_classification_history, add_classification_history, sTie,
      List.insertionSort, List.orderedInsert, historyDescLE]
  · norm_num [get_classification_history, add_classification_history, sTie,
      List.insertionSort, List.orderedInsert, historyDescLE]

/-- C7 (amended): `get_statistics` returns the total number of ledger
entries, per-category counts that sum to the total, the arithmetic mean of
confidence ROUNDED to four decimal places (so within 1/20000 of the true
mean, but not always equal to it — see the counterexample), the number of
registered facilities, and the count of entries of the trailing 24 hours;
on an empty ledger it returns total 0, average 0.0 and an empty
breakdown. -/
theorem statistics_contract (now : ℤ) (s : DBState) :
    (get_statistics now s).total_classifications = s.history.length ∧
    (get_statistics now s).total_facilities = s.facilities.length ∧
    ((get_statistics now s).classifications_by_type.map Prod.snd).sum = s.history.length ∧
    (s.history ≠ [] →
      |(get_statistics now s).average_confidence -
        (s.history.map (fun e => e.confidence)).sum / (s.history.length : ℚ)| ≤ 1/20000) ∧
    (get_statistics now s).recent_activity_24h =
      (s.history.filter (fun e => decide (now - 86400 ≤ e.timestamp))).length ∧
    (s.history = [] →
      (get_statistics now s).total_classifications = 0 ∧
      (get_statistics now s).average_confidence = 0 ∧
      (get_statistics now s).classifications_by_type = []) := by
  refine ⟨rfl, rfl, ?_, ?_, rfl, ?_⟩
  · show ((classificationsByType s.history).map Prod.snd).sum = s.history.length
    rw [classificationsByType, List.map_map]
    have h : (Prod.snd ∘ fun t => (t, (s.history.map (fun e => e.plastic_type)).count t)) =
        fun t => (s.history.map (fun e => e.plastic_type)).count t := rfl
    rw [h, sum_counts_dedup, List.length_map]
  · intro hne
    have hlen : ¬ s.history.length = 0 := fun h => hne (List.length_eq_zero.mp h)
    have h : (get_statistics now s).average_confidence =
        roundTo4 ((s.history.map (fun e => e.confidence)).sum / (s.history.length : ℚ)) := by
      simp only [get_statistics, if_neg hlen]
    rw [h]
    exact abs_roundTo4_sub _
  · intro h
    refine ⟨?_, ?_, ?_⟩ <;> simp [get_statistics, classificationsByType, h]

/-- C7 witness: the rounded average of the one-entry ledger `sAvg` is
within 1/20000 of the true mean. -/
theorem statistics_contract_witness :
    sAvg.history ≠ [] ∧
    |(get_statistics 0 sAvg).average_confidence -
      (sAvg.history.map (fun e => e.confidence)).sum / (sAvg.history.length : ℚ)| ≤ 1/20000 :=
  ⟨by simp [sAvg], (statistics_contract 0 sAvg).2.2.2.1 (by simp [sAvg])⟩

/-- C7 counterexample: with a single ledger entry of confidence 1/50000
the arithmetic mean is 1/50000, but `get_statistics` reports
`average_confidence = 0.0` (the mean rounded to four decimals), so the
returned value is not the arithmetic mean. -/
theorem statistics_average_not_mean :
    (get_statistics 0 sAvg).average_confidence = 0 ∧
    (sAvg.history.map (fun e => e.confidence)).sum / (sAvg.history.length : ℚ) = 1/50000 ∧
    (get_statistics 0 sAvg).average_confidence ≠
      (sAvg.history.map (fun e => e.confidence)).sum / (sAvg.history.length : ℚ) := by
  have h1 : (get_statistics 0 sAvg).average_confidence = 0 := by
    norm_num [get_statistics, sAvg, roundTo4]
  have h2 : (sAvg.history.map (fun e => e.confidence)).sum / (sAvg.history.length : ℚ)
      = 1/50000 := by
    norm_num [sAvg]
  refine ⟨h1, h2, ?_⟩
  rw [h1, h2]
  norm_num
